import Mathlib

/-!
Verification of the GitHub integration module of AndcultureCode.Cli.

The repository ships the module's test suite; the module itself
(`modules/github.ts`) is absent from the sources at hand, so every
operation below is a shallow embedding reconstructed from the
specification's description of the module, cross-checked against the
behaviors the test suite asserts.  Network interaction is modelled by
passing the server's response(s) as explicit arguments, and each
operation returns an `OpResult` recording the messages emitted on the
error channel, whether process termination was signalled (`shell.exit`),
the REST calls issued, and the optional result value (`none` models the
JavaScript `undefined`/`null` no-result sentinel).
-/

namespace Github

/-- Owner handle of a repository, mirroring the `owner.login` projection
of the GitHub REST payload. -/
structure RepoOwner where
  login : String
deriving Repr, DecidableEq

/-- Repository payload: `\x7b name, owner.login, url, topics? \x7d`. -/
structure Repository where
  name : String
  owner : RepoOwner
  url : String
  topics : Option (List String) := none
deriving Repr, DecidableEq

/-- Author projection of an issue (`user.login`). -/
structure GithubUser where
  login : String
deriving Repr, DecidableEq

/-- Issue payload: `number` is the stable per-repository identifier used
for lookup during cloning. -/
structure Issue where
  number : Nat
  title : String
  body : String
  user : GithubUser
deriving Repr, DecidableEq

/-- Input to issue creation: `\x7b owner, repo, title, body? \x7d`; not persisted. -/
structure CreateIssueDto where
  owner : String
  repo : String
  title : String
  body : Option String := none
deriving Repr, DecidableEq

/-- Source of an issue clone: `\x7b owner, repo, number \x7d`. -/
structure CloneIssueSourceDto where
  owner : String
  repo : String
  number : Nat
deriving Repr, DecidableEq

/-- Destination of an issue clone: `\x7b owner, repo \x7d`. -/
structure CloneIssueDestinationDto where
  owner : String
  repo : String
deriving Repr, DecidableEq

/-- Pull request projection (read-only; only an identifier is modelled). -/
structure PullRequest where
  id : Nat
deriving Repr, DecidableEq

/-- Pull-request review projection (read-only). -/
structure Review where
  id : Nat
deriving Repr, DecidableEq

/-- Body of the topics endpoint: `\x7b names: string[] \x7d`. -/
structure TopicsDto where
  names : List String
deriving Repr, DecidableEq

/-- A server response: HTTP status plus optional deserialized body
(`none` models a null/absent body). -/
structure Response (α : Type) where
  status : Nat
  data : Option α
deriving Repr, DecidableEq

/-- One REST call issued by an operation, identifying the endpoint and
the request payload where one exists. -/
inductive ApiCall where
  | getRepo (owner repoName : String)
  | getRepos (owner : String)
  | getIssues (owner repoName : String)
  | postIssue (dto : CreateIssueDto)
  | getTopics (owner repoName : String)
  | putTopics (owner repoName : String) (names : List String)
  | getPulls (owner repoName : String)
  | getReviews (owner repoName : String) (pullNumber : Nat)
deriving Repr, DecidableEq

/-- Observable outcome of one operation: error-channel messages, whether
process termination was signalled, the REST calls issued, and the
optional result (`none` = the undefined/no-result sentinel). -/
structure OpResult (α : Type) where
  errors : List String
  exited : Bool
  calls : List ApiCall
  result : Option α
deriving Repr, DecidableEq

/-- A required string parameter is missing or blank when it is
undefined/null (`none`) or consists only of whitespace (this covers the
empty string). -/
def isBlank : Option String → Bool
  | none => true
  | some s => s.data.all Char.isWhitespace

/-- Whether a status is a 2xx success. -/
def is2xx (status : Nat) : Prop :=
  200 ≤ status ∧ status < 300

instance (status : Nat) : Decidable (is2xx status) :=
  inferInstanceAs (Decidable (_ ∧ _))

/-- The fixed default organization used when no owner/org is supplied. -/
def andcultureOrg : String := "AndcultureCode"

/-- Character-level embedding of JavaScript `name.startsWith(pre)`. -/
def strStartsWith (s pre : String) : Bool :=
  List.isPrefixOf pre.data s.data

/-- Modelled from the spec: `configureToken(token)` (missing source file
`modules/github.ts`).  Scoped acquisition of the local config file: if it
does not exist (`none`), create it containing the token; if it exists,
append the token as a new entry without destroying existing content.
The file is modelled by its optional list of lines (the spec stores one
token per line/entry). -/
def configureToken (token : String) (file : Option (List String)) : List String :=
  match file with
  | none => [token]
  | some lines => lines ++ [token]

/-- Modelled from the spec: `topicsForRepository(owner, repoName)`
(missing source file `modules/github.ts`).  Validates both parameters;
on a blank parameter the repository's tests assert the operation outputs
an error and returns undefined without installing a `shell.exit` mock,
so the validation branch emits an error and returns no result without
signalling termination.  Otherwise issues one GET for the topic
collection; a null body, or a status outside the inclusive success range
[200, 202], emits an error and yields no result; otherwise the ordered
topic names are returned exactly as received. -/
def topicsForRepository (owner repoName : Option String)
    (resp : Response TopicsDto) : OpResult (List String) :=
  if isBlank owner || isBlank repoName then
    ⟨["owner and repository name are required"], false, [], none⟩
  else
    let calls := [ApiCall.getTopics (owner.getD "") (repoName.getD "")]
    match resp.data with
    | none => ⟨["topics response has no body"], false, calls, none⟩
    | some dto =>
      if 200 ≤ resp.status ∧ resp.status ≤ 202 then
        ⟨[], false, calls, some dto.names⟩
      else
        ⟨["unexpected status for topics request"], false, calls, none⟩

/-- Idempotent union used by `addTopicToRepository`: appends the topic
unless it is already present. -/
def addTopicSet (topic : String) (existing : List String) : List String :=
  if topic ∈ existing then existing else existing ++ [topic]

/-- Idempotent set-difference used by `removeTopicFromRepository`. -/
def removeTopicSet (topic : String) (existing : List String) : List String :=
  existing.filter (fun t => t ≠ topic)

/-- Modelled from the spec: `addTopicToRepository(topic, owner, repoName)`
(missing source file `modules/github.ts`).  Validates all three
parameters; on a blank parameter it emits an error and signals
termination (the tests assert `shell.exit` is called) with no network
call.  Otherwise it fetches the current topic set, computes the
idempotent union with the new topic, PUTs the full replacement set, and
returns the set actually stored by the server as reported in the PUT
response body (not the locally computed set). -/
def addTopicToRepository (topic owner repoName : Option String)
    (getResp putResp : Response TopicsDto) : OpResult (List String) :=
  if isBlank topic || isBlank owner || isBlank repoName then
    ⟨["topic, owner, and repository name are required"], true, [], none⟩
  else
    let fetch := topicsForRepository owner repoName getResp
    match fetch.result with
    | none => ⟨fetch.errors, fetch.exited, fetch.calls, none⟩
    | some existing =>
      let updated := addTopicSet (topic.getD "") existing
      let calls :=
        fetch.calls ++
          [ApiCall.putTopics (owner.getD "") (repoName.getD "") updated]
      match putResp.data with
      | none => ⟨["topic update returned no body"], false, calls, none⟩
      | some dto => ⟨[], false, calls, some dto.names⟩

/-- Modelled from the spec:
`removeTopicFromRepository(topic, owner, repoName)` (missing source file
`modules/github.ts`).  Same contract as `addTopicToRepository`, computing
the idempotent set-difference instead of the union. -/
def removeTopicFromRepository (topic owner repoName : Option String)
    (getResp putResp : Response TopicsDto) : OpResult (List String) :=
  if isBlank topic || isBlank owner || isBlank repoName then
    ⟨["topic, owner, and repository name are required"], true, [], none⟩
  else
    let fetch := topicsForRepository owner repoName getResp
    match fetch.result with
    | none => ⟨fetch.errors, fetch.exited, fetch.calls, none⟩
    | some existing =>
      let updated := removeTopicSet (topic.getD "") existing
      let calls :=
        fetch.calls ++
          [ApiCall.putTopics (owner.getD "") (repoName.getD "") updated]
      match putResp.data with
      | none => ⟨["topic update returned no body"], false, calls, none⟩
      | some dto => ⟨[], false, calls, some dto.names⟩

/-- Accumulation of a paginated listing: every page must be a 2xx
response carrying a body; a failing page aborts the whole listing
(`none`, not partial results); otherwise the pages are concatenated in
page order. -/
def collectPages : List (Response (List Repository)) → Option (List Repository)
  | [] => some []
  | page :: rest =>
    if is2xx page.status then
      match page.data with
      | some repos => (collectPages rest).map (fun acc => repos ++ acc)
      | none => none
    else none

/-- Application of the optional client-side filter of a listing; absent
filter means the accumulated sequence is returned unchanged. -/
def applyFilter (filter : Option (List Repository → List Repository))
    (repos : List Repository) : List Repository :=
  match filter with
  | none => repos
  | some f => f repos

/-- Modelled from the spec: `repositories(owner?, filter?)` (missing
source file `modules/github.ts`).  If `owner` is absent the operation
returns no result without emitting an error.  Otherwise it issues a
paginated GET against the owner's repository collection (the pages are
passed in as the server's successive responses), accumulates all pages
into one ordered sequence, and applies the optional filter client-side
over the full accumulated sequence.  A failing page surfaces as an error
with no partial result. -/
def repositories (owner : Option String)
    (filter : Option (List Repository → List Repository))
    (pages : List (Response (List Repository))) : OpResult (List Repository) :=
  match owner with
  | none => ⟨[], false, [], none⟩
  | some o =>
    match collectPages pages with
    | none => ⟨["repository listing failed"], false, [ApiCall.getRepos o], none⟩
    | some repos =>
      ⟨[], false, [ApiCall.getRepos o], some (applyFilter filter repos)⟩

/-- Modelled from the spec: `repositoriesByOrganization(org?, filter?)`
(missing source file `modules/github.ts`).  Defaults the organization to
the fixed default organization when omitted; otherwise identical to
`repositories`. -/
def repositoriesByOrganization (org : Option String)
    (filter : Option (List Repository → List Repository))
    (pages : List (Response (List Repository))) : OpResult (List Repository) :=
  repositories (some (org.getD andcultureOrg)) filter pages

/-- Modelled from the spec: `repositoriesByAndculture(username?)`
(missing source file `modules/github.ts`).  With no username, lists the
default organization's own repositories; with a username, lists that
user's repositories filtered to those whose name starts with the default
organization name. -/
def repositoriesByAndculture (username : Option String)
    (pages : List (Response (List Repository))) : OpResult (List Repository) :=
  match username with
  | none => repositoriesByOrganization none none pages
  | some u =>
    repositories (some u)
      (some (fun repos => repos.filter (fun r => strStartsWith r.name andcultureOrg)))
      pages

/-- Modelled from the spec: `getRepo(username, repoName)` (undocumented
in the component design; reconstructed from the endpoint list
`GET /repos/\x7bowner\x7d/\x7brepo\x7d`, the not-found taxonomy that maps absence to a
no-result sentinel, and the repository's tests, the missing source file
being `modules/github.ts`).  A 2xx response yields the repository payload
as returned by the server; any other status (a nonexistent user or
repository manifests as a 404) yields null without a fatal error. -/
def getRepo (username repoName : String)
    (resp : Response Repository) : OpResult Repository :=
  let calls := [ApiCall.getRepo username repoName]
  if is2xx resp.status then
    ⟨[], false, calls, resp.data⟩
  else
    ⟨[], false, calls, none⟩

/-- Modelled from the spec: `getIssues(owner, repo)` (missing source file
`modules/github.ts`).  Validates both parameters; otherwise issues one
GET for the issue collection and returns the ordered sequence as
received; a non-2xx response or missing body emits an error and yields
no result. -/
def getIssues (owner repoName : Option String)
    (resp : Response (List Issue)) : OpResult (List Issue) :=
  if isBlank owner || isBlank repoName then
    ⟨["owner and repository name are required"], true, [], none⟩
  else
    let calls := [ApiCall.getIssues (owner.getD "") (repoName.getD "")]
    match resp.data with
    | none => ⟨["issues request failed"], false, calls, none⟩
    | some issues =>
      if is2xx resp.status then
        ⟨[], false, calls, some issues⟩
      else
        ⟨["unexpected status for issues request"], false, calls, none⟩

/-- Modelled from the spec: `getPullRequests(owner, repoName)` (missing
source file `modules/github.ts`).  Validates both parameters (a blank
one emits an error and signals termination, as the tests assert); then
GETs the pull-request collection; a non-2xx response or missing body
emits an error and yields no result. -/
def getPullRequests (owner repoName : Option String)
    (resp : Response (List PullRequest)) : OpResult (List PullRequest) :=
  if isBlank owner || isBlank repoName then
    ⟨["owner and repository name are required"], true, [], none⟩
  else
    let calls := [ApiCall.getPulls (owner.getD "") (repoName.getD "")]
    match resp.data with
    | none => ⟨["pull request listing failed"], false, calls, none⟩
    | some pulls =>
      if is2xx resp.status then
        ⟨[], false, calls, some pulls⟩
      else
        ⟨["unexpected status for pull request listing"], false, calls, none⟩

/-- Modelled from the spec:
`getPullRequestReviews(owner, repoName, pullNumber)` (missing source
file `modules/github.ts`).  Same validation-then-fetch contract as
`getPullRequests`, scoped to the review sub-resource. -/
def getPullRequestReviews (owner repoName : Option String) (pullNumber : Nat)
    (resp : Response (List Review)) : OpResult (List Review) :=
  if isBlank owner || isBlank repoName then
    ⟨["owner and repository name are required"], true, [], none⟩
  else
    let calls :=
      [ApiCall.getReviews (owner.getD "") (repoName.getD "") pullNumber]
    match resp.data with
    | none => ⟨["review listing failed"], false, calls, none⟩
    | some reviews =>
      if is2xx resp.status then
        ⟨[], false, calls, some reviews⟩
      else
        ⟨["unexpected status for review listing"], false, calls, none⟩

/-- Statuses of the issue-creation POST treated as acceptable failures:
an explicit set, not a numeric range. -/
def acceptableCreateIssueStatuses : List Nat := [300, 400, 401, 403, 404]

/-- Modelled from the spec: `addIssueToRepository(dto)` (missing source
file `modules/github.ts`).  POSTs to the destination repository's issue
collection.  Any response whose status is in the explicit acceptable
failure set yields no result without raising; a 2xx response yields the
created issue exactly as returned by the server; any other failure emits
an error and yields no result. -/
def addIssueToRepository (dto : CreateIssueDto)
    (resp : Response Issue) : OpResult Issue :=
  let calls := [ApiCall.postIssue dto]
  if resp.status ∈ acceptableCreateIssueStatuses then
    ⟨[], false, calls, none⟩
  else
    if is2xx resp.status then
      ⟨[], false, calls, resp.data⟩
    else
      ⟨["unexpected status for issue creation"], false, calls, none⟩

/-- The CreateIssueDto built by `cloneIssueToRepository` from the matched
source issue's content plus the destination coordinates. -/
def buildCloneDto (issue : Issue)
    (destination : CloneIssueDestinationDto) : CreateIssueDto :=
  { owner := destination.owner
    repo := destination.repo
    title := issue.title
    body := some issue.body }

/-- Modelled from the spec:
`cloneIssueToRepository(source, destination)` (missing source file
`modules/github.ts`).  Fetches all issues of the source repository and
scans for the entry whose number equals `source.number`.  If absent,
emits an error, signals termination (hard stop), and returns no result
without attempting any POST.  If found, builds a CreateIssueDto from the
matched issue's content plus the destination owner/repo, delegates to
`addIssueToRepository`, and returns its result unchanged. -/
def cloneIssueToRepository (source : CloneIssueSourceDto)
    (destination : CloneIssueDestinationDto)
    (issuesResp : Response (List Issue))
    (createResp : Response Issue) : OpResult Issue :=
  let fetch := getIssues (some source.owner) (some source.repo) issuesResp
  let issues := fetch.result.getD []
  match issues.find? (fun i => i.number == source.number) with
  | none =>
    ⟨fetch.errors ++ ["source issue not found"], true, fetch.calls, none⟩
  | some issue =>
    let created := addIssueToRepository (buildCloneDto issue destination) createResp
    ⟨fetch.errors ++ created.errors, fetch.exited || created.exited,
      fetch.calls ++ created.calls, created.result⟩

/-- Outcome of a bulk topic operation: beyond the observable channels of
`OpResult`, it records one entry per invocation of the single-repository
operation, as the triple (topic, owner login, repository name). -/
structure BulkResult where
  errors : List String
  exited : Bool
  calls : List ApiCall
  mutations : List (String × String × String)
deriving Repr, DecidableEq

/-- Shared logic of the bulk topic operations: fetch every repository of
the default organization, then require confirmation before mutating
anything; if the caller declines, the process terminates with zero
mutation invocations; if the caller confirms, the single-repository
operation is invoked exactly once per repository returned by the
listing. -/
def bulkTopicOperation (topic : String)
    (pages : List (Response (List Repository)))
    (confirmed : Bool) : BulkResult :=
  let listing := repositoriesByOrganization none none pages
  match listing.result with
  | none => ⟨listing.errors, listing.exited, listing.calls, []⟩
  | some repos =>
    if confirmed then
      ⟨listing.errors, false, listing.calls,
        repos.map (fun r => (topic, r.owner.login, r.name))⟩
    else
      ⟨listing.errors, true, listing.calls, []⟩

/-- Modelled from the spec: `addTopicToAllRepositories(topic)` (missing
source file `modules/github.ts`).  Fetches the default organization's
repository list, asks for confirmation, and only when confirmed invokes
`addTopicToRepository` once per listed repository; declining terminates
without issuing any mutation. -/
def addTopicToAllRepositories (topic : String)
    (pages : List (Response (List Repository)))
    (confirmed : Bool) : BulkResult :=
  bulkTopicOperation topic pages confirmed

/-- Modelled from the spec: `removeTopicFromAllRepositories(topic)`
(missing source file `modules/github.ts`).  Same contract as
`addTopicToAllRepositories`, invoking `removeTopicFromRepository` once
per listed repository when confirmed. -/
def removeTopicFromAllRepositories (topic : String)
    (pages : List (Response (List Repository)))
    (confirmed : Bool) : BulkResult :=
  bulkTopicOperation topic pages confirmed

/-- C7: `configureToken` creates the config file containing the token when
the file does not exist, and appends the token when the file exists such
that all pre-existing file content is still present afterward — the file
is never truncated. -/
theorem configureToken_spec (token : String) (existing : List String) :
    configureToken token none = [token] ∧
    token ∈ configureToken token (some existing) ∧
    ∃ appended, appended ≠ [] ∧
      configureToken token (some existing) = existing ++ appended := by
  refine ⟨rfl, ?_, ⟨[token], by simp, rfl⟩⟩
  simp [configureToken]

/-- C10: `getRepo` returns null when the username or the repository does
not exist (the server answers 404), and when both exist returns the
Repository whose name equals the requested name and whose owner login
equals the requested username. -/
theorem getRepo_spec (username repoName : String) (resp : Response Repository) :
    (resp.status = 404 → (getRepo username repoName resp).result = none) ∧
    (∀ repo, is2xx resp.status → resp.data = some repo →
      repo.name = repoName → repo.owner.login = username →
      (getRepo username repoName resp).result = some repo ∧
      repo.name = repoName ∧ repo.owner.login = username) := by
  constructor
  · intro h404
    have hnot : ¬ is2xx resp.status := by
      simp only [is2xx]
      omega
    simp [getRepo, hnot]
  · intro repo h2 hd hn howner
    simp [getRepo, h2, hd, hn, howner]

/-- C10 witness: a concrete 200 response for an existing user/repository
pair yields exactly the repository payload. -/
theorem getRepo_spec_witness :
    (getRepo "AndcultureCode" "AndcultureCode.Cli"
        ⟨200, some ⟨"AndcultureCode.Cli", ⟨"AndcultureCode"⟩, "u", none⟩⟩).result =
      some ⟨"AndcultureCode.Cli", ⟨"AndcultureCode"⟩, "u", none⟩ :=
  ((getRepo_spec "AndcultureCode" "AndcultureCode.Cli"
      ⟨200, some ⟨"AndcultureCode.Cli", ⟨"AndcultureCode"⟩, "u", none⟩⟩).2
    ⟨"AndcultureCode.Cli", ⟨"AndcultureCode"⟩, "u", none⟩
    (by decide) rfl rfl rfl).1

/-- C3: `addIssueToRepository` returns no result when the response status
is any member of the explicit set 300, 400, 401, 403, 404, and for a 2xx
response returns the created issue exactly as in the server's response
body (title and author reflect the server's body, not the request
DTO). -/
theorem addIssueToRepository_spec (dto : CreateIssueDto) (resp : Response Issue) :
    (resp.status ∈ acceptableCreateIssueStatuses →
      (addIssueToRepository dto resp).result = none) ∧
    (∀ issue, is2xx resp.status → resp.data = some issue →
      (addIssueToRepository dto resp).result = some issue ∧
      (addIssueToRepository dto resp).result.map Issue.title = some issue.title ∧
      (addIssueToRepository dto resp).result.map (fun i => i.user.login) =
        some issue.user.login) := by
  constructor
  · intro hmem
    simp [addIssueToRepository, hmem]
  · intro issue h2 hd
    have hupper : resp.status < 300 := h2.2
    have hnot : resp.status ∉ acceptableCreateIssueStatuses := by
      intro hmem
      simp only [acceptableCreateIssueStatuses, List.mem_cons,
        List.not_mem_nil, or_false] at hmem
      omega
    simp [addIssueToRepository, hnot, h2, hd]

/-- C3 witness: a concrete 201 response yields the server's issue, while
each status of the acceptable failure set yields no result. -/
theorem addIssueToRepository_spec_witness :
    (addIssueToRepository ⟨"octo", "repo", "dto title", none⟩
        ⟨201, some ⟨7, "server title", "server body", ⟨"server author"⟩⟩⟩).result =
      some ⟨7, "server title", "server body", ⟨"server author"⟩⟩ ∧
    (addIssueToRepository ⟨"octo", "repo", "dto title", none⟩
        ⟨404, some ⟨7, "server title", "server body", ⟨"server author"⟩⟩⟩).result =
      none :=
  ⟨((addIssueToRepository_spec ⟨"octo", "repo", "dto title", none⟩
        ⟨201, some ⟨7, "server title", "server body", ⟨"server author"⟩⟩⟩).2
      ⟨7, "server title", "server body", ⟨"server author"⟩⟩ (by decide) rfl).1,
    (addIssueToRepository_spec ⟨"octo", "repo", "dto title", none⟩
        ⟨404, some ⟨7, "server title", "server body", ⟨"server author"⟩⟩⟩).1
      (by decide)⟩

/-- C4: for non-blank owner and repoName, `topicsForRepository` returns
exactly the server's ordered topic list when the status lies in the
inclusive range [200, 202] and the body is non-null; for any status
strictly below 200 or strictly above 202, or a null body, it emits an
error and returns no result. -/
theorem topicsForRepository_spec (owner repoName : Option String)
    (resp : Response TopicsDto)
    (ho : isBlank owner = false) (hr : isBlank repoName = false) :
    (∀ dto, resp.data = some dto → 200 ≤ resp.status → resp.status ≤ 202 →
      (topicsForRepository owner repoName resp).result = some dto.names ∧
      (topicsForRepository owner repoName resp).errors = []) ∧
    ((resp.status < 200 ∨ 202 < resp.status ∨ resp.data = none) →
      (topicsForRepository owner repoName resp).result = none ∧
      (topicsForRepository owner repoName resp).errors ≠ []) := by
  constructor
  · intro dto hd hlo hhi
    have hcond : 200 ≤ resp.status ∧ resp.status ≤ 202 := ⟨hlo, hhi⟩
    simp [topicsForRepository, ho, hr, hd, hcond]
  · intro hfail
    rcases hdata : resp.data with _ | dto
    · simp [topicsForRepository, ho, hr, hdata]
    · have hcond : ¬ (200 ≤ resp.status ∧ resp.status ≤ 202) := by
        rcases hfail with h | h | h
        · omega
        · omega
        · rw [hdata] at h
          exact absurd h (by simp)
      simp [topicsForRepository, ho, hr, hdata, hcond]

/-- C4 witness: concrete calls exercising the success branch and the
out-of-range branch. -/
theorem topicsForRepository_spec_witness :
    (topicsForRepository (some "octo") (some "repo")
        ⟨202, some ⟨["api", "infra"]⟩⟩).result = some ["api", "infra"] ∧
    (topicsForRepository (some "octo") (some "repo")
        ⟨203, some ⟨["api", "infra"]⟩⟩).result = none :=
  ⟨((topicsForRepository_spec (some "octo") (some "repo")
        ⟨202, some ⟨["api", "infra"]⟩⟩ (by decide) (by decide)).1
      ⟨["api", "infra"]⟩ rfl (by decide) (by decide)).1,
    ((topicsForRepository_spec (some "octo") (some "repo")
        ⟨203, some ⟨["api", "infra"]⟩⟩ (by decide) (by decide)).2
      (Or.inr (Or.inl (by decide)))).1⟩

/-- C2 counterexample: invoked with an empty owner string,
`topicsForRepository` takes its validation branch — it emits a
descriptive error, issues no network call, and produces no result — yet
does not signal termination, refuting the claim that every listed
operation signals a non-zero process exit on a blank required
parameter. -/
theorem topicsForRepository_validation_no_exit :
    (topicsForRepository (some "") (some "repo") ⟨200, some ⟨[]⟩⟩).errors ≠ [] ∧
    (topicsForRepository (some "") (some "repo") ⟨200, some ⟨[]⟩⟩).calls = [] ∧
    (topicsForRepository (some "") (some "repo") ⟨200, some ⟨[]⟩⟩).result = none ∧
    (topicsForRepository (some "") (some "repo") ⟨200, some ⟨[]⟩⟩).exited = false := by
  decide

/-- C2 (amended): invoking addTopicToRepository, removeTopicFromRepository,
getPullRequests, getPullRequestReviews, or topicsForRepository with any
required string parameter undefined, null, empty, or whitespace-only
emits a descriptive error on the error channel, makes no network call,
and produces no result; the first four additionally signal termination,
while topicsForRepository returns undefined without signalling
termination. -/
theorem requiredParameterValidation_spec
    (topic owner repoName o2 r2 : Option String) (pullNumber : Nat)
    (getResp putResp : Response TopicsDto)
    (pullsResp : Response (List PullRequest))
    (reviewsResp : Response (List Review))
    (h : isBlank owner = true ∨ isBlank repoName = true) :
    ((addTopicToRepository topic owner repoName getResp putResp).errors ≠ [] ∧
     (addTopicToRepository topic owner repoName getResp putResp).exited = true ∧
     (addTopicToRepository topic owner repoName getResp putResp).calls = [] ∧
     (addTopicToRepository topic owner repoName getResp putResp).result = none) ∧
    ((removeTopicFromRepository topic owner repoName getResp putResp).errors ≠ [] ∧
     (removeTopicFromRepository topic owner repoName getResp putResp).exited = true ∧
     (removeTopicFromRepository topic owner repoName getResp putResp).calls = [] ∧
     (removeTopicFromRepository topic owner repoName getResp putResp).result = none) ∧
    ((getPullRequests owner repoName pullsResp).errors ≠ [] ∧
     (getPullRequests owner repoName pullsResp).exited = true ∧
     (getPullRequests owner repoName pullsResp).calls = [] ∧
     (getPullRequests owner repoName pullsResp).result = none) ∧
    ((getPullRequestReviews owner repoName pullNumber reviewsResp).errors ≠ [] ∧
     (getPullRequestReviews owner repoName pullNumber reviewsResp).exited = true ∧
     (getPullRequestReviews owner repoName pullNumber reviewsResp).calls = [] ∧
     (getPullRequestReviews owner repoName pullNumber reviewsResp).result = none) ∧
    ((topicsForRepository owner repoName getResp).errors ≠ [] ∧
     (topicsForRepository owner repoName getResp).exited = false ∧
     (topicsForRepository owner repoName getResp).calls = [] ∧
     (topicsForRepository owner repoName getResp).result = none) ∧
    (isBlank topic = true →
      (addTopicToRepository topic o2 r2 getResp putResp).errors ≠ [] ∧
      (addTopicToRepository topic o2 r2 getResp putResp).exited = true ∧
      (addTopicToRepository topic o2 r2 getResp putResp).calls = [] ∧
      (addTopicToRepository topic o2 r2 getResp putResp).result = none ∧
      (removeTopicFromRepository topic o2 r2 getResp putResp).errors ≠ [] ∧
      (removeTopicFromRepository topic o2 r2 getResp putResp).exited = true ∧
      (removeTopicFromRepository topic o2 r2 getResp putResp).calls = [] ∧
      (removeTopicFromRepository topic o2 r2 getResp putResp).result = none) := by
  refine ⟨?_, ?_, ?_, ?_, ?_, fun ht => ?_⟩
  · rcases h with h | h <;> simp [addTopicToRepository, h]
  · rcases h with h | h <;> simp [removeTopicFromRepository, h]
  · rcases h with h | h <;> simp [getPullRequests, h]
  · rcases h with h | h <;> simp [getPullRequestReviews, h]
  · rcases h with h | h <;> simp [topicsForRepository, h]
  · simp [addTopicToRepository, removeTopicFromRepository, ht]

/-- C2 witness: a concrete blank owner short-circuits every operation,
with termination signalled by the topic mutations but not by
topicsForRepository. -/
theorem requiredParameterValidation_spec_witness :
    (addTopicToRepository (some "infra") none (some "repo")
        ⟨200, some ⟨[]⟩⟩ ⟨200, some ⟨[]⟩⟩).exited = true ∧
    (topicsForRepository none (some "repo") ⟨200, some ⟨[]⟩⟩).exited = false :=
  let h := requiredParameterValidation_spec (some "infra") none (some "repo")
    none none 1 ⟨200, some ⟨[]⟩⟩ ⟨200, some ⟨[]⟩⟩ ⟨200, some []⟩ ⟨200, some []⟩
    (Or.inl (by decide))
  ⟨h.1.2.1, h.2.2.2.2.1.2.1⟩

/-- Helper: the issue-creation POST is issued exactly once per invocation
of addIssueToRepository, whatever the server answers. -/
theorem addIssueToRepository_calls (dto : CreateIssueDto) (resp : Response Issue) :
    (addIssueToRepository dto resp).calls = [ApiCall.postIssue dto] := by
  simp only [addIssueToRepository]
  split
  · rfl
  · split <;> rfl

/-- C1: cloneIssueToRepository first fetches the source repository's
issues; when no fetched issue carries the source number it signals
termination, returns no result, and attempts no POST; when a matching
issue exists it invokes addIssueToRepository exactly once, with the
CreateIssueDto built from the matched issue's content plus the
destination owner/repo, and returns that call's result unchanged. -/
theorem cloneIssueToRepository_spec
    (source : CloneIssueSourceDto) (destination : CloneIssueDestinationDto)
    (issuesResp : Response (List Issue)) (createResp : Response Issue)
    (issues : List Issue)
    (ho : isBlank (some source.owner) = false)
    (hr : isBlank (some source.repo) = false)
    (hs : is2xx issuesResp.status)
    (hd : issuesResp.data = some issues) :
    (issues.find? (fun i => i.number == source.number) = none →
      (cloneIssueToRepository source destination issuesResp createResp).result = none ∧
      (cloneIssueToRepository source destination issuesResp createResp).exited = true ∧
      (cloneIssueToRepository source destination issuesResp createResp).calls =
        [ApiCall.getIssues source.owner source.repo]) ∧
    (∀ issue, issues.find? (fun i => i.number == source.number) = some issue →
      (cloneIssueToRepository source destination issuesResp createResp).calls =
        [ApiCall.getIssues source.owner source.repo,
          ApiCall.postIssue (buildCloneDto issue destination)] ∧
      (cloneIssueToRepository source destination issuesResp createResp).result =
        (addIssueToRepository (buildCloneDto issue destination) createResp).result) := by
  have hfetch : getIssues (some source.owner) (some source.repo) issuesResp =
      ⟨[], false, [ApiCall.getIssues source.owner source.repo], some issues⟩ := by
    simp [getIssues, ho, hr, hd, hs]
  constructor
  · intro hfind
    simp [cloneIssueToRepository, hfetch, hfind]
  · intro issue hfind
    simp [cloneIssueToRepository, hfetch, hfind, addIssueToRepository_calls]

/-- C1 witness: a source issue list containing the requested number
yields exactly one fetch followed by one POST of the derived DTO. -/
theorem cloneIssueToRepository_spec_witness :
    (cloneIssueToRepository ⟨"srcOwner", "srcRepo", 5⟩ ⟨"dstOwner", "dstRepo"⟩
        ⟨200, some [⟨5, "t", "b", ⟨"alice"⟩⟩]⟩
        ⟨201, some ⟨9, "t", "b", ⟨"bob"⟩⟩⟩).calls =
      [ApiCall.getIssues "srcOwner" "srcRepo",
        ApiCall.postIssue (buildCloneDto ⟨5, "t", "b", ⟨"alice"⟩⟩ ⟨"dstOwner", "dstRepo"⟩)] :=
  ((cloneIssueToRepository_spec ⟨"srcOwner", "srcRepo", 5⟩ ⟨"dstOwner", "dstRepo"⟩
      ⟨200, some [⟨5, "t", "b", ⟨"alice"⟩⟩]⟩ ⟨201, some ⟨9, "t", "b", ⟨"bob"⟩⟩⟩
      [⟨5, "t", "b", ⟨"alice"⟩⟩]
      (by decide) (by decide) (by decide) rfl).2
    ⟨5, "t", "b", ⟨"alice"⟩⟩ rfl).1

/-- C5: both bulk topic operations fetch the default organization's
repository list, and after an accepted confirmation invoke the
single-repository operation exactly once per repository returned by the
listing; a declined confirmation terminates with zero mutation calls. -/
theorem bulkTopicOperations_spec (topic : String)
    (pages : List (Response (List Repository))) (repos : List Repository)
    (hlist : collectPages pages = some repos) :
    ((addTopicToAllRepositories topic pages true).calls =
        [ApiCall.getRepos andcultureOrg] ∧
     (addTopicToAllRepositories topic pages true).mutations =
        repos.map (fun r => (topic, r.owner.login, r.name)) ∧
     (addTopicToAllRepositories topic pages true).mutations.length = repos.length ∧
     (addTopicToAllRepositories topic pages false).mutations = [] ∧
     (addTopicToAllRepositories topic pages false).exited = true) ∧
    ((removeTopicFromAllRepositories topic pages true).calls =
        [ApiCall.getRepos andcultureOrg] ∧
     (removeTopicFromAllRepositories topic pages true).mutations =
        repos.map (fun r => (topic, r.owner.login, r.name)) ∧
     (removeTopicFromAllRepositories topic pages true).mutations.length = repos.length ∧
     (removeTopicFromAllRepositories topic pages false).mutations = [] ∧
     (removeTopicFromAllRepositories topic pages false).exited = true) := by
  have hlisting : repositoriesByOrganization none none pages =
      ⟨[], false, [ApiCall.getRepos andcultureOrg], some repos⟩ := by
    simp [repositoriesByOrganization, repositories, hlist, applyFilter]
  constructor <;>
    simp [addTopicToAllRepositories, removeTopicFromAllRepositories,
      bulkTopicOperation, hlisting]

/-- C5 witness: a two-repository listing yields exactly two mutation
invocations when confirmed, and none when declined. -/
theorem bulkTopicOperations_spec_witness :
    (addTopicToAllRepositories "infra"
        [⟨200, some [⟨"RepoA", ⟨"AndcultureCode"⟩, "u", none⟩,
          ⟨"RepoB", ⟨"AndcultureCode"⟩, "u", none⟩]⟩] true).mutations.length = 2 ∧
    (removeTopicFromAllRepositories "infra"
        [⟨200, some [⟨"RepoA", ⟨"AndcultureCode"⟩, "u", none⟩,
          ⟨"RepoB", ⟨"AndcultureCode"⟩, "u", none⟩]⟩] false).mutations = [] :=
  let h := bulkTopicOperations_spec "infra"
    [⟨200, some [⟨"RepoA", ⟨"AndcultureCode"⟩, "u", none⟩,
      ⟨"RepoB", ⟨"AndcultureCode"⟩, "u", none⟩]⟩]
    [⟨"RepoA", ⟨"AndcultureCode"⟩, "u", none⟩,
      ⟨"RepoB", ⟨"AndcultureCode"⟩, "u", none⟩] rfl
  ⟨(h.1.2.2.1).trans rfl, h.2.2.2.2.1⟩

/-- C6: for non-blank topic, owner, and repoName, the single-repository
topic mutations fetch the current topic set, PUT the full replacement
set (idempotent union for add, set-difference for remove), and return
the set actually stored by the server as reported in the PUT response;
the add result contains the added topic and the remove result does not
contain the removed topic. -/
theorem topicMutation_spec
    (topic owner repoName : Option String)
    (getResp addPutResp removePutResp : Response TopicsDto)
    (existing : List String)
    (ht : isBlank topic = false) (ho : isBlank owner = false)
    (hr : isBlank repoName = false)
    (hlo : 200 ≤ getResp.status) (hhi : getResp.status ≤ 202)
    (hdata : getResp.data = some ⟨existing⟩)
    (haddPut : addPutResp.data = some ⟨addTopicSet (topic.getD "") existing⟩)
    (hremPut : removePutResp.data = some ⟨removeTopicSet (topic.getD "") existing⟩) :
    ((addTopicToRepository topic owner repoName getResp addPutResp).calls =
      [ApiCall.getTopics (owner.getD "") (repoName.getD ""),
        ApiCall.putTopics (owner.getD "") (repoName.getD "")
          (addTopicSet (topic.getD "") existing)] ∧
     (addTopicToRepository topic owner repoName getResp addPutResp).result =
      some (addTopicSet (topic.getD "") existing) ∧
     topic.getD "" ∈ addTopicSet (topic.getD "") existing) ∧
    ((removeTopicFromRepository topic owner repoName getResp removePutResp).calls =
      [ApiCall.getTopics (owner.getD "") (repoName.getD ""),
        ApiCall.putTopics (owner.getD "") (repoName.getD "")
          (removeTopicSet (topic.getD "") existing)] ∧
     (removeTopicFromRepository topic owner repoName getResp removePutResp).result =
      some (removeTopicSet (topic.getD "") existing) ∧
     topic.getD "" ∉ removeTopicSet (topic.getD "") existing) := by
  have hcond : 200 ≤ getResp.status ∧ getResp.status ≤ 202 := ⟨hlo, hhi⟩
  have hfetch : topicsForRepository owner repoName getResp =
      ⟨[], false, [ApiCall.getTopics (owner.getD "") (repoName.getD "")],
        some existing⟩ := by
    simp [topicsForRepository, ho, hr, hdata, hcond]
  constructor
  · refine ⟨?_, ?_, ?_⟩
    · simp [addTopicToRepository, ht, ho, hr, hfetch, haddPut]
    · simp [addTopicToRepository, ht, ho, hr, hfetch, haddPut]
    · by_cases hmem : topic.getD "" ∈ existing <;> simp [addTopicSet, hmem]
  · refine ⟨?_, ?_, ?_⟩
    · simp [removeTopicFromRepository, ht, ho, hr, hfetch, hremPut]
    · simp [removeTopicFromRepository, ht, ho, hr, hfetch, hremPut]
    · simp [removeTopicSet, List.mem_filter]

/-- C6 witness: adding "infra" to a repository whose topics are ["api"]
PUTs and returns ["api", "infra"]; removing the sole topic returns a set
without it. -/
theorem topicMutation_spec_witness :
    (addTopicToRepository (some "infra") (some "octo") (some "repo")
        ⟨200, some ⟨["api"]⟩⟩ ⟨200, some ⟨["api", "infra"]⟩⟩).result =
      some ["api", "infra"] ∧
    (removeTopicFromRepository (some "api") (some "octo") (some "repo")
        ⟨200, some ⟨["api"]⟩⟩ ⟨200, some ⟨[]⟩⟩).result = some [] :=
  ⟨((topicMutation_spec (some "infra") (some "octo") (some "repo")
      ⟨200, some ⟨["api"]⟩⟩ ⟨200, some ⟨["api", "infra"]⟩⟩ ⟨200, some ⟨["api"]⟩⟩
      ["api"] (by decide) (by decide) (by decide) (by decide) (by decide)
      rfl (by decide) (by decide)).1).2.1,
    ((topicMutation_spec (some "api") (some "octo") (some "repo")
      ⟨200, some ⟨["api"]⟩⟩ ⟨200, some ⟨["api"]⟩⟩ ⟨200, some ⟨[]⟩⟩
      ["api"] (by decide) (by decide) (by decide) (by decide) (by decide)
      rfl (by decide) (by decide)).2).2.1⟩

/-- C8: repositories returns no result and no error when the owner is
absent; with an owner it returns the accumulated page-ordered repository
sequence, and with a filter it returns the filter applied client-side to
the full accumulated sequence. -/
theorem repositories_spec
    (filter : Option (List Repository → List Repository))
    (f : List Repository → List Repository)
    (pages : List (Response (List Repository))) (repos : List Repository)
    (hlist : collectPages pages = some repos) :
    ((repositories none filter pages).result = none ∧
     (repositories none filter pages).errors = [] ∧
     (repositories none filter pages).calls = []) ∧
    (∀ o, (repositories (some o) none pages).result = some repos) ∧
    (∀ o, (repositories (some o) (some f) pages).result = some (f repos)) := by
  refine ⟨by simp [repositories], fun o => ?_, fun o => ?_⟩ <;>
    simp [repositories, hlist, applyFilter]

/-- C8 witness: absent owner yields no result on the very same pages that
yield the accumulated list once an owner is supplied. -/
theorem repositories_spec_witness :
    (repositories none none
        [⟨200, some [⟨"A", ⟨"w"⟩, "u", none⟩]⟩]).result = none ∧
    (repositories (some "wintondeshong") none
        [⟨200, some [⟨"A", ⟨"w"⟩, "u", none⟩]⟩]).result =
      some [⟨"A", ⟨"w"⟩, "u", none⟩] :=
  let h := repositories_spec none (fun rs => rs)
    [⟨200, some [⟨"A", ⟨"w"⟩, "u", none⟩]⟩] [⟨"A", ⟨"w"⟩, "u", none⟩] rfl
  ⟨h.1.1, h.2.1 "wintondeshong"⟩

/-- C9: repositoriesByAndculture with no username returns the default
organization's own repository list, and with a username returns that
user's repositories restricted to exactly those whose name is prefixed
by the default organization name. -/
theorem repositoriesByAndculture_spec
    (pages : List (Response (List Repository))) (repos : List Repository)
    (hlist : collectPages pages = some repos) :
    (repositoriesByAndculture none pages).result = some repos ∧
    (repositoriesByAndculture none pages).calls = [ApiCall.getRepos andcultureOrg] ∧
    (∀ u, (repositoriesByAndculture (some u) pages).result =
        some (repos.filter (fun r => strStartsWith r.name andcultureOrg)) ∧
      (repositoriesByAndculture (some u) pages).calls = [ApiCall.getRepos u]) := by
  refine ⟨?_, ?_, fun u => ⟨?_, ?_⟩⟩ <;>
    simp [repositoriesByAndculture, repositoriesByOrganization, repositories,
      hlist, applyFilter]

/-- C9 witness: with a username, only the repository whose name starts
with the default organization name survives the filter. -/
theorem repositoriesByAndculture_spec_witness :
    (repositoriesByAndculture (some "wintondeshong")
        [⟨200, some [⟨"AndcultureCode.Cli", ⟨"w"⟩, "u", none⟩,
          ⟨"Other", ⟨"w"⟩, "u", none⟩]⟩]).result =
      some [⟨"AndcultureCode.Cli", ⟨"w"⟩, "u", none⟩] :=
  (((repositoriesByAndculture_spec
      [⟨200, some [⟨"AndcultureCode.Cli", ⟨"w"⟩, "u", none⟩,
        ⟨"Other", ⟨"w"⟩, "u", none⟩]⟩]
      [⟨"AndcultureCode.Cli", ⟨"w"⟩, "u", none⟩, ⟨"Other", ⟨"w"⟩, "u", none⟩]
      rfl).2.2 "wintondeshong").1).trans (by decide)

end Github
